import Mathlib

/-!
Verification of the baby-bed-control device-communication layer.

This file gives a shallow embedding of the Python sources
`src/modules/arduino/base_controller.py`, `bed_controller.py`,
`heart_rate_controller.py` and `src/modules/auto_face_tracker.py`,
and proves the testable properties of the design document about them.

Python strings are modelled as Lean `String`; the handful of Python
string primitives the code uses (`startswith`, `endswith`, `in`,
`split`, `replace`, `strip`, `int`) are re-implemented below on the
underlying character lists, following CPython semantics on ASCII input
(whitespace is the six ASCII whitespace characters; `int` accepts an
optional sign and ASCII digits with single internal underscores).
-/

/-- The six ASCII whitespace characters recognised by `str.strip`. -/
def isPySpace (c : Char) : Bool :=
  c == ' ' || c == '\t' || c == '\n' || c == '\r' || c == '\x0B' || c == '\x0C'

/-- Python `s.startswith(p)`. -/
def pyStartswith (s p : String) : Bool :=
  p.data.isPrefixOf s.data

/-- Python `s.endswith(p)`. -/
def pyEndswith (s p : String) : Bool :=
  p.data.reverse.isPrefixOf s.data.reverse

/-- Does the needle occur as a contiguous sublist of the haystack?
Models Python `needle in haystack` on strings. -/
def listContainsSub (needle : List Char) : List Char → Bool
  | [] => needle.isEmpty
  | c :: t => needle.isPrefixOf (c :: t) || listContainsSub needle t

/-- Python `p in s` (substring containment). -/
def pyContains (s p : String) : Bool :=
  listContainsSub p.data s.data

/-- Worker for `pySplit`: split a character list on a non-empty separator.
The fuel argument starts at the length of the list, which bounds the
number of recursive calls since every call consumes at least one
character. -/
def splitGo (sep : List Char) : Nat → List Char → List (List Char)
  | _, [] => [[]]
  | 0, l => [l]
  | fuel + 1, c :: t =>
    if sep.isPrefixOf (c :: t) then
      [] :: splitGo sep fuel ((c :: t).drop sep.length)
    else
      match splitGo sep fuel t with
      | [] => [[c]]
      | p :: ps => (c :: p) :: ps

/-- Python `s.split(sep)` for a non-empty separator. -/
def pySplit (s sep : String) : List String :=
  (splitGo sep.data s.data.length s.data).map (fun l => String.mk l)

/-- Worker for `pyReplace`: replace every occurrence of `old` by `new`,
scanning left to right.  Fuel bounds the recursion as in `splitGo`. -/
def replaceGo (old new : List Char) : Nat → List Char → List Char
  | _, [] => []
  | 0, l => l
  | fuel + 1, c :: t =>
    if old.isPrefixOf (c :: t) then
      new ++ replaceGo old new fuel ((c :: t).drop old.length)
    else
      c :: replaceGo old new fuel t

/-- Python `s.replace(old, new)` for a non-empty `old`. -/
def pyReplace (s old new : String) : String :=
  String.mk (replaceGo old.data new.data s.data.length s.data)

/-- Python `s.strip()` (ASCII whitespace). -/
def pyStrip (s : String) : String :=
  String.mk (((s.data.dropWhile isPySpace).reverse.dropWhile isPySpace).reverse)

/-- No two adjacent underscores (part of Python `int` literal syntax). -/
def noDoubleUnderscore : List Char → Bool
  | c1 :: c2 :: t => !(c1 == '_' && c2 == '_') && noDoubleUnderscore (c2 :: t)
  | _ => true

/-- Is this a valid unsigned Python integer digit string: non-empty,
first and last characters are digits, every character is a digit or an
underscore, and no two underscores are adjacent. -/
def digitsOk (l : List Char) : Bool :=
  match l with
  | [] => false
  | c :: _ =>
    c.isDigit && (l.getLast?.any Char.isDigit) &&
    l.all (fun d => d.isDigit || d == '_') && noDoubleUnderscore l

/-- Numeric value of a digit string, ignoring underscores. -/
def digitsToNat (l : List Char) : Nat :=
  l.foldl (fun acc c => if c.isDigit then acc * 10 + (c.toNat - '0'.toNat) else acc) 0

/-- Python `int(s)` for base 10: `some` value on success, `none` when a
`ValueError` would be raised. -/
def pyInt (s : String) : Option Int :=
  match (pyStrip s).data with
  | '+' :: rest => if digitsOk rest then some (Int.ofNat (digitsToNat rest)) else none
  | '-' :: rest => if digitsOk rest then some (-(Int.ofNat (digitsToNat rest))) else none
  | l => if digitsOk l then some (Int.ofNat (digitsToNat l)) else none

/-! ## Base controller: the outbound command queue

From `BaseArduinoController.send_command` (base_controller.py, lines
188-211): refuse immediately when not connected; otherwise append the
command, newline-terminated, to the FIFO queue. -/

/-- `send_command`: given the connection flag and the current queue,
returns whether the command was accepted together with the new queue. -/
def sendCommand (isConnected : Bool) (commandQueue : List String) (commandString : String) :
    Bool × List String :=
  if !isConnected then
    (false, commandQueue)
  else
    let commandToSend := if pyEndswith commandString "\n" then commandString
                         else commandString ++ "\n"
    (true, commandQueue ++ [commandToSend])

/-! ## Heart-rate controller

From `HeartRateController` (heart_rate_controller.py).  Callbacks are
identified by opaque numeric ids; an invocation of a callback with a
heart-rate value is recorded as a pair in the notification list a
handler step emits. -/

/-- State of a `HeartRateController` instance.  `monitoring` abstracts
"the monitoring thread is alive and its stop event is not set";
`monitorStartCount` counts how many monitoring threads have ever been
started (instrumentation for the reference-counting property);
`sentCommands` is the outbound command queue of the base controller. -/
structure HeartRateState where
  currentHeartRate : Option Int
  lastHeartRateResponse : Option String
  subscribers : List Nat
  monitoring : Bool
  consecutiveFailures : Nat
  maxFailures : Nat
  isConnected : Bool
  sentCommands : List String
  monitorStartCount : Nat
deriving Repr, DecidableEq

/-- The state right after `HeartRateController.__init__` (with the
connection attempt having produced the given `is_connected` flag). -/
def hrInit (connected : Bool) : HeartRateState :=
  { currentHeartRate := none
    lastHeartRateResponse := none
    subscribers := []
    monitoring := false
    consecutiveFailures := 0
    maxFailures := 5
    isConnected := connected
    sentCommands := []
    monitorStartCount := 0 }

/-- `split(":")[1].strip()` then `int(...)` — the extraction attempted by
the `HEART_RATE_DATA:` branch; `none` models the caught
`IndexError`/`ValueError`. -/
def extractHeartRateData (line : String) : Option Int :=
  match pySplit line ":" with
  | _ :: p1 :: _ => pyInt (pyStrip p1)
  | _ => none

/-- `replace(tag, "").strip()` then `int(...)` — the extraction attempted
by the `[BPM]` and `[HEART]` branches. -/
def extractTagged (line tag : String) : Option Int :=
  pyInt (pyStrip (pyReplace line tag ""))

/-- `parts = line.split(key)`; then
`parts[1].split(",")[0].strip()` if `parts[1]` contains a comma, else
`parts[1].strip()`; then `int(...)` — the extraction attempted by the
`HEART_RATE=` and `HEART=` branches. -/
def extractAfterKey (line key : String) : Option Int :=
  match pySplit line key with
  | _ :: p1 :: _ =>
    let rateStr := if pyContains p1 "," then (pySplit p1 ",").headD "" else p1
    pyInt (pyStrip rateStr)
  | _ => none

/-- The heart-rate value `_handle_specific_response` extracts from a
line: the branch structure of the handler (in source order), with `none`
on every path that does not reach a successful `int(...)`. -/
def codeExtract (line : String) : Option Int :=
  if pyStartswith line "HEART_RATE_DATA:" then extractHeartRateData line
  else if pyStartswith line "[BPM]" then extractTagged line "[BPM]"
  else if pyStartswith line "[HEART]" then extractTagged line "[HEART]"
  else if pyStartswith line "UNKNOWN_CMD:" then none
  else if pyContains line "HEART_RATE=" then extractAfterKey line "HEART_RATE="
  else if pyContains line "HEART=" then extractAfterKey line "HEART="
  else none

/-- `HeartRateController._handle_specific_response` (lines 38-112):
returns the new state together with the list of subscriber
notifications (`callback id, value` pairs) made by
`_notify_subscribers`. -/
def handleHeartRateResponse (st : HeartRateState) (line : String) :
    HeartRateState × List (Nat × Int) :=
  if pyStartswith line "HEART_RATE_DATA:" then
    match extractHeartRateData line with
    | some v =>
      ({ st with currentHeartRate := some v, lastHeartRateResponse := some line,
                 consecutiveFailures := 0 },
       st.subscribers.map (fun c => (c, v)))
    | none => ({ st with consecutiveFailures := st.consecutiveFailures + 1 }, [])
  else if pyStartswith line "[BPM]" then
    match extractTagged line "[BPM]" with
    | some v =>
      ({ st with currentHeartRate := some v, lastHeartRateResponse := some line,
                 consecutiveFailures := 0 },
       st.subscribers.map (fun c => (c, v)))
    | none => ({ st with consecutiveFailures := st.consecutiveFailures + 1 }, [])
  else if pyStartswith line "[HEART]" then
    match extractTagged line "[HEART]" with
    | some v =>
      ({ st with currentHeartRate := some v, lastHeartRateResponse := some line,
                 consecutiveFailures := 0 },
       st.subscribers.map (fun c => (c, v)))
    | none => ({ st with consecutiveFailures := st.consecutiveFailures + 1 }, [])
  else if pyStartswith line "UNKNOWN_CMD:" then
    ({ st with consecutiveFailures := st.consecutiveFailures + 1 }, [])
  else if pyContains line "HEART_RATE=" then
    match extractAfterKey line "HEART_RATE=" with
    | some v =>
      ({ st with currentHeartRate := some v, lastHeartRateResponse := some line,
                 consecutiveFailures := 0 },
       st.subscribers.map (fun c => (c, v)))
    | none => ({ st with consecutiveFailures := st.consecutiveFailures + 1 }, [])
  else if pyContains line "HEART=" then
    match extractAfterKey line "HEART=" with
    | some v =>
      ({ st with currentHeartRate := some v, lastHeartRateResponse := some line,
                 consecutiveFailures := 0 },
       st.subscribers.map (fun c => (c, v)))
    | none => ({ st with consecutiveFailures := st.consecutiveFailures + 1 }, [])
  else
    ({ st with consecutiveFailures := st.consecutiveFailures + 1 }, [])

/-- `HeartRateController.start_monitoring` (lines 190-202): no-op when
the monitoring thread is already alive or the Arduino is not connected;
otherwise reset the failure counter and start a fresh thread. -/
def hrStartMonitoring (st : HeartRateState) : HeartRateState :=
  if st.monitoring then st
  else if !st.isConnected then st
  else { st with consecutiveFailures := 0, monitoring := true,
                 monitorStartCount := st.monitorStartCount + 1 }

/-- `HeartRateController.stop_monitoring` (lines 204-207): signal the
loop to stop. -/
def hrStopMonitoring (st : HeartRateState) : HeartRateState :=
  { st with monitoring := false }

/-- `HeartRateController.subscribe_heart_rate` (lines 145-154). -/
def hrSubscribe (st : HeartRateState) (cb : Nat) : HeartRateState :=
  let st1 := if st.subscribers.contains cb then st
             else { st with subscribers := st.subscribers ++ [cb] }
  hrStartMonitoring st1

/-- `HeartRateController.unsubscribe_heart_rate` (lines 156-166):
remove the callback (first occurrence, no-op when absent), then stop
monitoring when no subscriber is left. -/
def hrUnsubscribe (st : HeartRateState) (cb : Nat) : HeartRateState :=
  let st1 := { st with subscribers := st.subscribers.erase cb }
  if st1.subscribers.isEmpty then hrStopMonitoring st1 else st1

/-- One iteration of `HeartRateController._monitoring_loop`
(lines 168-188), run atomically: when the stop event is set the loop has
exited and the iteration does nothing; otherwise increment the failure
counter if disconnected, else enqueue a `GET_HEART_RATE` poll (which
succeeds, being connected); then stop the loop if the failure counter
has reached the ceiling. -/
def hrTick (st : HeartRateState) : HeartRateState :=
  if !st.monitoring then st
  else
    let st1 :=
      if !st.isConnected then
        { st with consecutiveFailures := st.consecutiveFailures + 1 }
      else
        let r := sendCommand st.isConnected st.sentCommands "GET_HEART_RATE"
        let st2 := { st with sentCommands := r.2 }
        if !r.1 then { st2 with consecutiveFailures := st2.consecutiveFailures + 1 } else st2
    if st1.consecutiveFailures ≥ st1.maxFailures then hrStopMonitoring st1 else st1

/-- The observable events a `HeartRateController` reacts to: an inbound
serial line, a subscribe or unsubscribe call, or one iteration of the
monitoring loop. -/
inductive HREvent where
  | line (s : String)
  | subscribe (cb : Nat)
  | unsubscribe (cb : Nat)
  | tick
deriving Repr, DecidableEq

/-- Apply one event to the heart-rate controller state. -/
def hrStep (st : HeartRateState) : HREvent → HeartRateState
  | .line s => (handleHeartRateResponse st s).1
  | .subscribe cb => hrSubscribe st cb
  | .unsubscribe cb => hrUnsubscribe st cb
  | .tick => hrTick st

/-- Run the heart-rate controller over a sequence of events. -/
def hrRun (st : HeartRateState) (evs : List HREvent) : HeartRateState :=
  evs.foldl hrStep st

/-! ## Bed controller

From `BedController` (bed_controller.py). -/

/-- State of a `BedController` instance, including the base
controller's connection flag and outbound command queue. -/
structure BedCtrl where
  isConnected : Bool
  commandQueue : List String
  lastBedResponse : Option String
  leftStatus : String
  rightStatus : String
deriving Repr, DecidableEq

/-- The state right after `BedController.__init__` (lines 17-29). -/
def bedInit (connected : Bool) : BedCtrl :=
  { isConnected := connected
    commandQueue := []
    lastBedResponse := none
    leftStatus := "stopped"
    rightStatus := "stopped" }

/-- `BedController._update_bed_status` (lines 47-69). -/
def updateBedStatus (st : BedCtrl) (action : String) : BedCtrl :=
  if action = "UP" then { st with leftStatus := "up", rightStatus := "up" }
  else if action = "DOWN" then { st with leftStatus := "down", rightStatus := "down" }
  else if action = "STOP" then { st with leftStatus := "stopped", rightStatus := "stopped" }
  else if action = "LEFT_UP" then { st with leftStatus := "up" }
  else if action = "LEFT_DOWN" then { st with leftStatus := "down" }
  else if action = "LEFT_STOP" then { st with leftStatus := "stopped" }
  else if action = "RIGHT_UP" then { st with rightStatus := "up" }
  else if action = "RIGHT_DOWN" then { st with rightStatus := "down" }
  else if action = "RIGHT_STOP" then { st with rightStatus := "stopped" }
  else st

/-- `BedController._handle_specific_response` (lines 31-45): on a
`CONFIRMED:` line, record it and update the status from the confirmed
action; `UNKNOWN_CMD:` and `STATUS` lines are only logged. -/
def bedHandleResponse (st : BedCtrl) (line : String) : BedCtrl :=
  if pyStartswith line "CONFIRMED:" then
    let action := pyStrip (pyReplace line "CONFIRMED:" "")
    updateBedStatus { st with lastBedResponse := some line } action
  else st

/-- `BedController.send_command` inherited from the base controller:
returns acceptance and updates the queue. -/
def bedSend (st : BedCtrl) (cmd : String) : Bool × BedCtrl :=
  let r := sendCommand st.isConnected st.commandQueue cmd
  (r.1, { st with commandQueue := r.2 })

/-- The events a `BedController` reacts to: one of the nine public
command methods (each of which only enqueues its command string), or an
inbound serial line. -/
inductive BedEvent where
  | bedUpCmd
  | bedDownCmd
  | bedStopCmd
  | leftUpCmd
  | leftDownCmd
  | leftStopCmd
  | rightUpCmd
  | rightDownCmd
  | rightStopCmd
  | line (s : String)
deriving Repr, DecidableEq

/-- Apply one event to the bed controller state (the command methods
`bed_up` ... `right_stop`, lines 73-165, each call `send_command` with
their fixed command string and touch nothing else). -/
def bedStep (st : BedCtrl) : BedEvent → BedCtrl
  | .bedUpCmd => (bedSend st "UP").2
  | .bedDownCmd => (bedSend st "DOWN").2
  | .bedStopCmd => (bedSend st "STOP").2
  | .leftUpCmd => (bedSend st "LEFT_UP").2
  | .leftDownCmd => (bedSend st "LEFT_DOWN").2
  | .leftStopCmd => (bedSend st "LEFT_STOP").2
  | .rightUpCmd => (bedSend st "RIGHT_UP").2
  | .rightDownCmd => (bedSend st "RIGHT_DOWN").2
  | .rightStopCmd => (bedSend st "RIGHT_STOP").2
  | .line s => bedHandleResponse st s

/-- Run the bed controller over a sequence of events. -/
def bedRun (st : BedCtrl) (evs : List BedEvent) : BedCtrl :=
  evs.foldl bedStep st

/-- A side status is one of the three documented values. -/
def validStatus (s : String) : Prop :=
  s = "up" ∨ s = "down" ∨ s = "stopped"

/-! ## Auto face tracker

From `AutoFaceTracker` (auto_face_tracker.py).  The camera collaborator
is modelled as `Option Bool` (absent, or present with its `is_running`
flag), and the Arduino controller likewise as `Option Bool` (absent, or
present with its `is_connected` flag).  Calls made on the Arduino
controller's bed methods are recorded as `DeviceCall` values. -/

/-- One entry of the adjustment sequence: an action name and a duration
in seconds (the Python float durations 1.0 and 0.5 are represented as
rationals). -/
structure AdjStep where
  action : String
  duration : ℚ
deriving Repr, DecidableEq

/-- The default adjustment sequence from `AutoFaceTracker.__init__`
(lines 45-58). -/
def defaultAdjustmentSequence : List AdjStep :=
  [⟨"left_up", 1⟩, ⟨"stop", 1/2⟩, ⟨"right_up", 1⟩, ⟨"stop", 1/2⟩,
   ⟨"left_down", 1⟩, ⟨"stop", 1/2⟩, ⟨"right_down", 1⟩, ⟨"stop", 1/2⟩,
   ⟨"up", 1⟩, ⟨"stop", 1/2⟩, ⟨"down", 1⟩, ⟨"stop", 1/2⟩]

/-- The tracker's bed-method calls on the Arduino controller. -/
inductive DeviceCall where
  | bedUp
  | bedDown
  | bedStop
  | leftUp
  | leftDown
  | leftStop
  | rightUp
  | rightDown
  | rightStop
deriving Repr, DecidableEq

/-- State of an `AutoFaceTracker` instance. -/
structure TrackerState where
  camera : Option Bool
  arduino : Option Bool
  faceDetectionThreshold : Nat
  adjustmentSequence : List AdjStep
  isRunning : Bool
  currentSequenceIndex : Nat
  noFaceCount : Nat
  lastFaceDetected : Bool
deriving Repr, DecidableEq

/-- The state right after `AutoFaceTracker.__init__` (lines 22-64):
`adjustment_sequence or [default]` replaces a `None` or empty sequence
argument by the default one (an absent argument is modelled as `[]`). -/
def trackerInit (camera : Option Bool) (arduino : Option Bool)
    (threshold : Nat) (seq : List AdjStep) : TrackerState :=
  { camera := camera
    arduino := arduino
    faceDetectionThreshold := threshold
    adjustmentSequence := if seq.isEmpty then defaultAdjustmentSequence else seq
    isRunning := false
    currentSequenceIndex := 0
    noFaceCount := 0
    lastFaceDetected := false }

/-- `AutoFaceTracker.start` (lines 66-86): refuse (returning `false`)
when already running, when the camera is absent or not running, or when
the Arduino controller is absent or not connected; otherwise mark the
tracker running and return `true`. -/
def trackerStart (st : TrackerState) : Bool × TrackerState :=
  if st.isRunning then (false, st)
  else
    match st.camera with
    | none => (false, st)
    | some camRunning =>
      if !camRunning then (false, st)
      else
        match st.arduino with
        | none => (false, st)
        | some connected =>
          if !connected then (false, st)
          else (true, { st with isRunning := true })

/-- `AutoFaceTracker._execute_bed_action` (lines 210-240): no call when
the controller is absent or not connected; one call for a known action
name; none (a logged warning) for an unknown one. -/
def executeBedAction (arduino : Option Bool) (action : String) : List DeviceCall :=
  match arduino with
  | none => []
  | some connected =>
    if !connected then []
    else if action = "up" then [DeviceCall.bedUp]
    else if action = "down" then [DeviceCall.bedDown]
    else if action = "stop" then [DeviceCall.bedStop]
    else if action = "left_up" then [DeviceCall.leftUp]
    else if action = "left_down" then [DeviceCall.leftDown]
    else if action = "left_stop" then [DeviceCall.leftStop]
    else if action = "right_up" then [DeviceCall.rightUp]
    else if action = "right_down" then [DeviceCall.rightDown]
    else if action = "right_stop" then [DeviceCall.rightStop]
    else []

/-- `AutoFaceTracker._adjust_bed_position` (lines 183-208): read the
entry at the sequence cursor, execute its action, then (when the action
is not `stop`) call `bed_stop` on the controller directly, and advance
the cursor modulo the sequence length.  `none` models the uncaught
exceptions of this method: an out-of-range cursor (`IndexError` /
`ZeroDivisionError` on an empty sequence), or the unguarded
`bed_stop()` call on an absent controller (`AttributeError`). -/
def adjustBedPosition (st : TrackerState) : Option (TrackerState × List DeviceCall) :=
  match st.adjustmentSequence.get? st.currentSequenceIndex with
  | none => none
  | some step =>
    if step.action ≠ "stop" then
      match st.arduino with
      | none => none
      | some _ =>
        some ({ st with currentSequenceIndex :=
                  (st.currentSequenceIndex + 1) % st.adjustmentSequence.length },
              executeBedAction st.arduino step.action ++ [DeviceCall.bedStop])
    else
      some ({ st with currentSequenceIndex :=
                (st.currentSequenceIndex + 1) % st.adjustmentSequence.length },
            executeBedAction st.arduino step.action)

/-- The second half of one iteration of
`AutoFaceTracker._tracking_loop` (lines 103-138): when the no-face
counter has reached the threshold, run one adjustment step and reset
the counter.  When the adjustment step raises, the surrounding `try`
swallows the exception and the counter is left un-reset. -/
def trackingStepAux (st1 : TrackerState) : TrackerState × List DeviceCall :=
  if st1.noFaceCount ≥ st1.faceDetectionThreshold then
    match adjustBedPosition st1 with
    | some (st2, calls) => ({ st2 with noFaceCount := 0 }, calls)
    | none => (st1, [])
  else (st1, [])

/-- One iteration of `AutoFaceTracker._tracking_loop` (lines 103-138),
with the camera frame and `_detect_faces` abstracted into the
`faceDetected` input: reset or bump the no-face counter, update the
edge flag, then run the threshold check of `trackingStepAux`. -/
def trackingStep (st : TrackerState) (faceDetected : Bool) : TrackerState × List DeviceCall :=
  if faceDetected then trackingStepAux { st with noFaceCount := 0, lastFaceDetected := true }
  else trackingStepAux { st with noFaceCount := st.noFaceCount + 1, lastFaceDetected := false }

/-- Run the tracking loop over a sequence of per-scan detection
outcomes, keeping only the state. -/
def trackerScanRun (st : TrackerState) (faces : List Bool) : TrackerState :=
  faces.foldl (fun s f => (trackingStep s f).1) st

/-- Run an adjustment step for iteration, keeping the state unchanged on
the exception path. -/
def adjustAndContinue (st : TrackerState) : TrackerState :=
  match adjustBedPosition st with
  | some (st2, _) => st2
  | none => st

/-! ## The spec-side classification rule for heart-rate lines -/

/-- The spec's classification rule for heart-rate lines, written as it
is stated: the five heart-rate patterns `HEART_RATE_DATA:`, `[BPM]`,
`[HEART]`, `HEART_RATE=`, `HEART=` are tried in priority order and the
first matching one extracts the number (the first three match as line
prefixes, the last two — "embedded inside a longer status line" — as
substrings; extraction per pattern as the handler performs it).  To be
compared against `codeExtract`. -/
def specFirstMatchExtract (line : String) : Option Int :=
  if pyStartswith line "HEART_RATE_DATA:" then extractHeartRateData line
  else if pyStartswith line "[BPM]" then extractTagged line "[BPM]"
  else if pyStartswith line "[HEART]" then extractTagged line "[HEART]"
  else if pyContains line "HEART_RATE=" then extractAfterKey line "HEART_RATE="
  else if pyContains line "HEART=" then extractAfterKey line "HEART="
  else none

/-! ## Helper lemmas -/

/-- The handler is determined by its extraction function: a successful
extraction stores the value and the line, zeroes the failure counter and
notifies every subscriber; any other line only bumps the failure
counter. -/
theorem handleHeartRateResponse_eq (st : HeartRateState) (line : String) :
    handleHeartRateResponse st line =
      match codeExtract line with
      | some v =>
        ({ st with currentHeartRate := some v, lastHeartRateResponse := some line,
                   consecutiveFailures := 0 },
         st.subscribers.map (fun c => (c, v)))
      | none => ({ st with consecutiveFailures := st.consecutiveFailures + 1 }, []) := by
  unfold handleHeartRateResponse codeExtract
  cases h1 : pyStartswith line "HEART_RATE_DATA:" <;>
    cases h2 : pyStartswith line "[BPM]" <;>
    cases h3 : pyStartswith line "[HEART]" <;>
    cases h4 : pyStartswith line "UNKNOWN_CMD:" <;>
    cases h5 : pyContains line "HEART_RATE=" <;>
    cases h6 : pyContains line "HEART=" <;>
    simp only [h1, h2, h3, h4, h5, h6, Bool.false_eq_true, if_false, if_true, reduceIte]

/-- The handler never touches the subscriber list or the monitoring
flag. -/
theorem handleHeartRateResponse_preserves (st : HeartRateState) (line : String) :
    (handleHeartRateResponse st line).1.monitoring = st.monitoring ∧
    (handleHeartRateResponse st line).1.subscribers = st.subscribers := by
  rw [handleHeartRateResponse_eq]
  cases h : codeExtract line <;> simp [h]

/-- A tick of the monitoring loop when the loop is stopped does
nothing. -/
theorem hrTick_of_not_monitoring (st : HeartRateState) (h : st.monitoring = false) :
    hrTick st = st := by
  unfold hrTick
  rw [h]
  rfl

/-- A tick never touches the subscriber list and never restarts a
stopped loop. -/
theorem hrTick_preserves (st : HeartRateState) :
    (hrTick st).subscribers = st.subscribers ∧
    ((hrTick st).monitoring = true → st.monitoring = true) := by
  cases hm : st.monitoring <;>
    cases hc : st.isConnected <;>
    simp [hrTick, hrStopMonitoring, sendCommand, hm, hc] <;>
    split <;> simp

/-- Right after a subscribe call the subscriber list is non-empty. -/
theorem hrSubscribe_subscribers_ne_nil (st : HeartRateState) (cb : Nat) :
    (hrSubscribe st cb).subscribers ≠ [] := by
  unfold hrSubscribe hrStartMonitoring
  cases h : st.subscribers.contains cb
  · cases hm : st.monitoring <;> cases hc : st.isConnected <;> simp [h, hm, hc]
  · have hmem : cb ∈ st.subscribers := by
      have h' : st.subscribers.elem cb = true := h
      exact List.elem_iff.mp h'
    have hne : st.subscribers ≠ [] := List.ne_nil_of_mem hmem
    cases hm : st.monitoring <;> cases hc : st.isConnected <;> simp [h, hm, hc, hne]

/-- Subscribing on a connected controller whose loop is stopped starts
the loop and clears the failure counter. -/
theorem hrSubscribe_starts (st : HeartRateState) (cb : Nat)
    (hm : st.monitoring = false) (hc : st.isConnected = true) :
    (hrSubscribe st cb).monitoring = true ∧
    (hrSubscribe st cb).consecutiveFailures = 0 := by
  unfold hrSubscribe hrStartMonitoring
  cases h : st.subscribers.contains cb <;> simp [h, hm, hc]

/-- Every single event preserves "the loop only runs with at least one
subscriber". -/
theorem hrStep_subscribers_of_monitoring (st : HeartRateState) (ev : HREvent)
    (h : st.monitoring = true → st.subscribers ≠ []) :
    (hrStep st ev).monitoring = true → (hrStep st ev).subscribers ≠ [] := by
  cases ev with
  | line s =>
    intro hm
    have hp := handleHeartRateResponse_preserves st s
    rw [hrStep] at hm ⊢
    rw [hp.2]
    exact h (hp.1 ▸ hm)
  | subscribe cb =>
    intro _
    exact hrSubscribe_subscribers_ne_nil st cb
  | unsubscribe cb =>
    intro hm
    rw [hrStep] at hm ⊢
    unfold hrUnsubscribe hrStopMonitoring at hm ⊢
    cases he : (st.subscribers.erase cb).isEmpty with
    | true => simp [he] at hm
    | false =>
      have hne : st.subscribers.erase cb ≠ [] := by
        intro hnil
        rw [hnil] at he
        simp at he
      simp [he, hne]
  | tick =>
    intro hm
    have hp := hrTick_preserves st
    rw [hrStep] at hm ⊢
    rw [hp.1]
    exact h (hp.2 hm)

/-- Along every run, the loop only runs with at least one subscriber. -/
theorem hrRun_monitoring_subscribers (evs : List HREvent) (st : HeartRateState)
    (h : st.monitoring = true → st.subscribers ≠ []) :
    (hrRun st evs).monitoring = true → (hrRun st evs).subscribers ≠ [] := by
  induction evs generalizing st with
  | nil => exact h
  | cons e t ih => exact ih (hrStep st e) (hrStep_subscribers_of_monitoring st e h)

/-! ## Claim C1 -/

/-- C1 as stated is false: the claim says that for every line the value
extracted is that of the first matching pattern among
`HEART_RATE_DATA:`, `[BPM]`, `[HEART]`, `HEART_RATE=`, `HEART=`.  The
line `UNKNOWN_CMD: HEART=72` matches the `HEART=` pattern (embedded),
so under the claim the value 72 would be extracted, but the handler
checks the `UNKNOWN_CMD:` prefix before the two embedded patterns and
extracts nothing from such a line: `current_heart_rate` stays `None`
and the failure counter is incremented instead. -/
theorem heartRate_firstPattern_counterexample :
    specFirstMatchExtract "UNKNOWN_CMD: HEART=72" = some 72 ∧
    codeExtract "UNKNOWN_CMD: HEART=72" = none ∧
    (handleHeartRateResponse (hrInit true) "UNKNOWN_CMD: HEART=72").1.currentHeartRate = none ∧
    (handleHeartRateResponse (hrInit true) "UNKNOWN_CMD: HEART=72").1.consecutiveFailures = 1 := by
  exact ⟨rfl, rfl, rfl, rfl⟩

/-- C1 (amended): classifying `STATUS: HEART=72` with the heart-rate
handler yields a heart-rate sample with value 72 (`current_heart_rate`
becomes 72), not a generic status line; and for every line that does
not start with `UNKNOWN_CMD:` (such lines are treated as
unknown-command replies before the embedded patterns are tried), the
value extracted is that of the first pattern, in the priority order
`HEART_RATE_DATA:`, `[BPM]`, `[HEART]`, `HEART_RATE=`, `HEART=`, that
matches the line. -/
theorem heartRate_extract_priority_amended (st : HeartRateState) (line : String)
    (h : pyStartswith line "UNKNOWN_CMD:" = false) :
    codeExtract line = specFirstMatchExtract line ∧
    (handleHeartRateResponse st "STATUS: HEART=72").1.currentHeartRate = some 72 ∧
    codeExtract "STATUS: HEART=72" = some 72 := by
  refine ⟨?_, ?_, rfl⟩
  · unfold codeExtract specFirstMatchExtract
    simp only [h, Bool.false_eq_true, if_false]
  · rw [handleHeartRateResponse_eq]
    rfl

/-- Witness for `heartRate_extract_priority_amended` at the line
`STATUS: HEART=72`. -/
theorem heartRate_extract_priority_witness :
    pyStartswith "STATUS: HEART=72" "UNKNOWN_CMD:" = false ∧
    codeExtract "STATUS: HEART=72" = specFirstMatchExtract "STATUS: HEART=72" :=
  ⟨rfl, (heartRate_extract_priority_amended (hrInit true) "STATUS: HEART=72" rfl).1⟩

/-! ## Claim C2 -/

/-- C2 as stated is false in one respect: after five consecutive
unrecognized lines have driven `consecutive_failures` to the ceiling 5,
the monitoring loop does issue one further poll command — its next
iteration sends `GET_HEART_RATE` first and only then checks the
ceiling.  Concretely: subscribe on a connected controller, feed five
unrecognized lines (failures = 5, loop still running), and the next
loop iteration enqueues a poll. -/
theorem failureCeiling_extraPoll_counterexample :
    (hrRun (hrInit true) (HREvent.subscribe 0 :: List.replicate 5 (HREvent.line "XYZ"))).consecutiveFailures = 5 ∧
    (hrRun (hrInit true) (HREvent.subscribe 0 :: List.replicate 5 (HREvent.line "XYZ"))).monitoring = true ∧
    (hrRun (hrInit true) ((HREvent.subscribe 0 :: List.replicate 5 (HREvent.line "XYZ")) ++ [HREvent.tick])).sentCommands = ["GET_HEART_RATE\n"] ∧
    (hrRun (hrInit true) ((HREvent.subscribe 0 :: List.replicate 5 (HREvent.line "XYZ")) ++ [HREvent.tick])).monitoring = false := by
  exact ⟨rfl, rfl, rfl, rfl⟩

/-- C2 (amended): five consecutive unrecognized events raise
`consecutive_failures` to the ceiling; the polling loop then stops
itself at its next iteration, issuing exactly one final poll command
before stopping and none after that; and a subsequent `subscribe()`
call resumes polling with `consecutive_failures` reset to 0. -/
theorem failureCeiling_stop_resume_amended (st : HeartRateState) (cb : Nat)
    (hm : st.monitoring = true) (hc : st.isConnected = true)
    (hf : st.maxFailures ≤ st.consecutiveFailures) :
    (hrRun (hrInit true) (HREvent.subscribe 0 :: List.replicate 5 (HREvent.line "NOISE"))).consecutiveFailures =
      (hrRun (hrInit true) (HREvent.subscribe 0 :: List.replicate 5 (HREvent.line "NOISE"))).maxFailures ∧
    (hrTick st).monitoring = false ∧
    (hrTick st).sentCommands = st.sentCommands ++ ["GET_HEART_RATE\n"] ∧
    hrTick (hrTick st) = hrTick st ∧
    (hrSubscribe (hrTick st) cb).monitoring = true ∧
    (hrSubscribe (hrTick st) cb).consecutiveFailures = 0 := by
  have hend : pyEndswith "GET_HEART_RATE" "\n" = false := rfl
  have happ : "GET_HEART_RATE" ++ "\n" = "GET_HEART_RATE\n" := rfl
  have htick : hrTick st =
      { st with sentCommands := st.sentCommands ++ ["GET_HEART_RATE\n"], monitoring := false } := by
    unfold hrTick hrStopMonitoring sendCommand
    simp only [hm, hc, hend, happ, Bool.not_true, Bool.false_eq_true, if_false, reduceIte]
    simp only [ge_iff_le, hf, if_true, reduceIte]
  have hresume := hrSubscribe_starts (hrTick st) cb (by rw [htick]) (by rw [htick]; exact hc)
  refine ⟨rfl, by rw [htick], by rw [htick], ?_, hresume.1, hresume.2⟩
  exact hrTick_of_not_monitoring (hrTick st) (by rw [htick])

/-- Witness for `failureCeiling_stop_resume_amended` at the state
reached by a subscribe followed by five unrecognized lines. -/
theorem failureCeiling_stop_resume_witness :
    (hrTick (hrRun (hrInit true) (HREvent.subscribe 0 :: List.replicate 5 (HREvent.line "NOISE")))).monitoring = false ∧
    (hrSubscribe (hrTick (hrRun (hrInit true) (HREvent.subscribe 0 :: List.replicate 5 (HREvent.line "NOISE")))) 0).consecutiveFailures = 0 := by
  have h := failureCeiling_stop_resume_amended
    (hrRun (hrInit true) (HREvent.subscribe 0 :: List.replicate 5 (HREvent.line "NOISE"))) 0
    rfl rfl (by decide)
  exact ⟨h.2.1, h.2.2.2.2.2⟩

/-! ## Claim C3 -/

/-- C3 as stated is false: "polling always runs while one or more
subscribers exist" fails, because a subscribe call on a disconnected
controller registers the subscriber but `start_monitoring` refuses to
start the loop.  (The failure-ceiling stop of
`failureCeiling_extraPoll_counterexample` breaks it too, with the
controller connected.) -/
theorem refCount_subscriberWithoutPolling_counterexample :
    (hrRun (hrInit false) [HREvent.subscribe 0]).subscribers = [0] ∧
    (hrRun (hrInit false) [HREvent.subscribe 0]).monitoring = false := by
  exact ⟨rfl, rfl⟩

/-- C3 (amended): polling is reference-counted on subscriptions — on a
connected controller the first `subscribe` starts exactly one polling
loop, a second `subscribe` does not start a second loop, unsubscribing
one of two subscribers leaves the loop running, and unsubscribing the
last subscriber stops it (after which a loop iteration enqueues no
further poll command); and over every reachable state the polling loop
never runs with zero subscribers.  The converse direction holds only
conditionally: a subscribe call on a disconnected controller, or a
failure-ceiling stop, leaves subscribers without a running loop. -/
theorem refCount_polling_amended (c : Bool) (evs : List HREvent)
    (h : (hrRun (hrInit c) evs).monitoring = true) :
    (hrRun (hrInit c) evs).subscribers ≠ [] ∧
    (hrSubscribe (hrInit true) 1).monitoring = true ∧
    (hrSubscribe (hrInit true) 1).monitorStartCount = 1 ∧
    (hrSubscribe (hrSubscribe (hrInit true) 1) 2).monitoring = true ∧
    (hrSubscribe (hrSubscribe (hrInit true) 1) 2).monitorStartCount = 1 ∧
    (hrUnsubscribe (hrSubscribe (hrSubscribe (hrInit true) 1) 2) 1).monitoring = true ∧
    (hrUnsubscribe (hrUnsubscribe (hrSubscribe (hrSubscribe (hrInit true) 1) 2) 1) 2).monitoring = false ∧
    hrTick (hrUnsubscribe (hrUnsubscribe (hrSubscribe (hrSubscribe (hrInit true) 1) 2) 1) 2) =
      hrUnsubscribe (hrUnsubscribe (hrSubscribe (hrSubscribe (hrInit true) 1) 2) 1) 2 := by
  refine ⟨?_, rfl, rfl, rfl, rfl, rfl, rfl, rfl⟩
  refine hrRun_monitoring_subscribers evs (hrInit c) ?_ h
  intro hm
  exact absurd hm (by simp [hrInit])

/-- Witness for `refCount_polling_amended` on a run where the loop is
running. -/
theorem refCount_polling_witness :
    (hrRun (hrInit true) [HREvent.subscribe 7]).subscribers ≠ [] :=
  (refCount_polling_amended true [HREvent.subscribe 7] rfl).1

/-! ## Claim C10 -/

/-- C10: for every inbound line from which the handler extracts no
heart-rate value (no pattern matches, or the matched pattern's numeric
field fails integer parsing, or the line is an `UNKNOWN_CMD:` reply)
the handler leaves `current_heart_rate` and `last_heart_rate_response`
unchanged, notifies no subscriber and increments
`consecutive_failures` by exactly one; every successfully parsed sample
sets `consecutive_failures` to 0, stores the value and the line, and
notifies every subscriber with the value. -/
theorem heartRate_failure_accounting (st : HeartRateState) (line : String) :
    (codeExtract line = none →
      handleHeartRateResponse st line =
        ({ st with consecutiveFailures := st.consecutiveFailures + 1 }, [])) ∧
    (∀ v : Int, codeExtract line = some v →
      handleHeartRateResponse st line =
        ({ st with currentHeartRate := some v, lastHeartRateResponse := some line,
                   consecutiveFailures := 0 },
         st.subscribers.map (fun c => (c, v)))) := by
  constructor
  · intro h
    rw [handleHeartRateResponse_eq, h]
  · intro v h
    rw [handleHeartRateResponse_eq, h]

/-- Witness for `heartRate_failure_accounting`: an unparseable line and
a parseable one, at a concrete state with one subscriber. -/
theorem heartRate_failure_accounting_witness :
    handleHeartRateResponse { hrInit true with subscribers := [3] } "BLAH" =
      ({ hrInit true with subscribers := [3], consecutiveFailures := 1 }, []) ∧
    handleHeartRateResponse { hrInit true with subscribers := [3] } "HEART_RATE_DATA: 80" =
      ({ hrInit true with subscribers := [3], currentHeartRate := some 80,
                          lastHeartRateResponse := some "HEART_RATE_DATA: 80" },
       [(3, 80)]) := by
  constructor
  · exact (heartRate_failure_accounting { hrInit true with subscribers := [3] } "BLAH").1 rfl
  · exact (heartRate_failure_accounting { hrInit true with subscribers := [3] } "HEART_RATE_DATA: 80").2 80 rfl

/-! ## Claim C4 -/

/-- C4: on a bed confirmation event the confirmed action name maps to
a state update, for every prior bed state: `CONFIRMED:UP`,
`CONFIRMED:DOWN`, `CONFIRMED:STOP` set both sides identically to
`up` / `down` / `stopped`; a `LEFT_x` or `RIGHT_x` confirmation updates
only the named side and leaves the other side's status unchanged; an
unknown action name leaves both sides unchanged. -/
theorem bed_confirmation_mapping (st : BedCtrl) (a : String)
    (h1 : a ≠ "UP") (h2 : a ≠ "DOWN") (h3 : a ≠ "STOP")
    (h4 : a ≠ "LEFT_UP") (h5 : a ≠ "LEFT_DOWN") (h6 : a ≠ "LEFT_STOP")
    (h7 : a ≠ "RIGHT_UP") (h8 : a ≠ "RIGHT_DOWN") (h9 : a ≠ "RIGHT_STOP") :
    ((updateBedStatus st a).leftStatus = st.leftStatus ∧
     (updateBedStatus st a).rightStatus = st.rightStatus) ∧
    ((bedHandleResponse st "CONFIRMED:UP").leftStatus = "up" ∧
     (bedHandleResponse st "CONFIRMED:UP").rightStatus = "up") ∧
    ((bedHandleResponse st "CONFIRMED:DOWN").leftStatus = "down" ∧
     (bedHandleResponse st "CONFIRMED:DOWN").rightStatus = "down") ∧
    ((bedHandleResponse st "CONFIRMED:STOP").leftStatus = "stopped" ∧
     (bedHandleResponse st "CONFIRMED:STOP").rightStatus = "stopped") ∧
    ((bedHandleResponse st "CONFIRMED:LEFT_UP").leftStatus = "up" ∧
     (bedHandleResponse st "CONFIRMED:LEFT_UP").rightStatus = st.rightStatus) ∧
    ((bedHandleResponse st "CONFIRMED:LEFT_DOWN").leftStatus = "down" ∧
     (bedHandleResponse st "CONFIRMED:LEFT_DOWN").rightStatus = st.rightStatus) ∧
    ((bedHandleResponse st "CONFIRMED:LEFT_STOP").leftStatus = "stopped" ∧
     (bedHandleResponse st "CONFIRMED:LEFT_STOP").rightStatus = st.rightStatus) ∧
    ((bedHandleResponse st "CONFIRMED:RIGHT_UP").rightStatus = "up" ∧
     (bedHandleResponse st "CONFIRMED:RIGHT_UP").leftStatus = st.leftStatus) ∧
    ((bedHandleResponse st "CONFIRMED:RIGHT_DOWN").rightStatus = "down" ∧
     (bedHandleResponse st "CONFIRMED:RIGHT_DOWN").leftStatus = st.leftStatus) ∧
    ((bedHandleResponse st "CONFIRMED:RIGHT_STOP").rightStatus = "stopped" ∧
     (bedHandleResponse st "CONFIRMED:RIGHT_STOP").leftStatus = st.leftStatus) := by
  refine ⟨?_, ⟨rfl, rfl⟩, ⟨rfl, rfl⟩, ⟨rfl, rfl⟩, ⟨rfl, rfl⟩, ⟨rfl, rfl⟩,
          ⟨rfl, rfl⟩, ⟨rfl, rfl⟩, ⟨rfl, rfl⟩, ⟨rfl, rfl⟩⟩
  unfold updateBedStatus
  simp [h1, h2, h3, h4, h5, h6, h7, h8, h9]

/-- Witness for `bed_confirmation_mapping` at the freshly constructed
controller and the unknown action name `FLY`. -/
theorem bed_confirmation_mapping_witness :
    (updateBedStatus (bedInit true) "FLY").leftStatus = (bedInit true).leftStatus ∧
    (updateBedStatus (bedInit true) "FLY").rightStatus = (bedInit true).rightStatus := by
  have h := bed_confirmation_mapping (bedInit true) "FLY"
    (by decide) (by decide) (by decide) (by decide) (by decide)
    (by decide) (by decide) (by decide) (by decide)
  exact h.1

/-! ## Claim C5 -/

/-- Appending the newline delimiter makes a command newline-terminated. -/
theorem pyEndswith_append_newline (s : String) : pyEndswith (s ++ "\n") "\n" = true := by
  unfold pyEndswith
  have hd : (s ++ "\n").data = s.data ++ ['\n'] := by
    rw [String.data_append]
  rw [hd]
  simp [List.isPrefixOf]

/-- C5: `send_command` returns false immediately when the connection is
down and in that case does not touch the outbound queue; when connected
it returns true and appends exactly one command, which is the given
text when it already ends in the newline delimiter and the text plus a
trailing newline otherwise — so the appended command is always
newline-terminated. -/
theorem sendCommand_queue_spec (connected : Bool) (q : List String) (cmd : String) :
    (connected = false → sendCommand connected q cmd = (false, q)) ∧
    (connected = true →
      (sendCommand connected q cmd).1 = true ∧
      (sendCommand connected q cmd).2 =
        q ++ [if pyEndswith cmd "\n" then cmd else cmd ++ "\n"] ∧
      pyEndswith (if pyEndswith cmd "\n" then cmd else cmd ++ "\n") "\n" = true) := by
  constructor
  · intro h
    rw [h]
    rfl
  · intro h
    subst h
    refine ⟨rfl, rfl, ?_⟩
    cases he : pyEndswith cmd "\n" with
    | true => simp [he]
    | false => simp [he, pyEndswith_append_newline]

/-- Witness for `sendCommand_queue_spec`: a disconnected send is
refused and leaves the queue alone; a connected send is accepted. -/
theorem sendCommand_queue_witness :
    sendCommand false ["A\n"] "UP" = (false, ["A\n"]) ∧
    (sendCommand true [] "UP").1 = true :=
  ⟨(sendCommand_queue_spec false ["A\n"] "UP").1 rfl,
   ((sendCommand_queue_spec true [] "UP").2 rfl).1⟩

/-! ## Claim C9 -/

/-- `_update_bed_status` only ever writes the three documented values. -/
theorem updateBedStatus_preserves_valid (st : BedCtrl) (a : String)
    (hl : validStatus st.leftStatus) (hr : validStatus st.rightStatus) :
    validStatus (updateBedStatus st a).leftStatus ∧
    validStatus (updateBedStatus st a).rightStatus := by
  unfold updateBedStatus validStatus at *
  split_ifs <;> simp_all

/-- Every bed event preserves the well-formedness of both sides. -/
theorem bedStep_preserves_valid (st : BedCtrl) (ev : BedEvent)
    (hl : validStatus st.leftStatus) (hr : validStatus st.rightStatus) :
    validStatus (bedStep st ev).leftStatus ∧ validStatus (bedStep st ev).rightStatus := by
  cases ev with
  | line s =>
    rw [bedStep]
    unfold bedHandleResponse
    cases hc : pyStartswith s "CONFIRMED:" with
    | false => simpa using ⟨hl, hr⟩
    | true =>
      simp only [if_true, reduceIte]
      exact updateBedStatus_preserves_valid
        { st with lastBedResponse := some s } (pyStrip (pyReplace s "CONFIRMED:" "")) hl hr
  | bedUpCmd => exact ⟨hl, hr⟩
  | bedDownCmd => exact ⟨hl, hr⟩
  | bedStopCmd => exact ⟨hl, hr⟩
  | leftUpCmd => exact ⟨hl, hr⟩
  | leftDownCmd => exact ⟨hl, hr⟩
  | leftStopCmd => exact ⟨hl, hr⟩
  | rightUpCmd => exact ⟨hl, hr⟩
  | rightDownCmd => exact ⟨hl, hr⟩
  | rightStopCmd => exact ⟨hl, hr⟩

/-- Well-formedness of both sides holds along every run. -/
theorem bedRun_preserves_valid (evs : List BedEvent) (st : BedCtrl)
    (hl : validStatus st.leftStatus) (hr : validStatus st.rightStatus) :
    validStatus (bedRun st evs).leftStatus ∧ validStatus (bedRun st evs).rightStatus := by
  induction evs generalizing st with
  | nil => exact ⟨hl, hr⟩
  | cons e t ih =>
    have h := bedStep_preserves_valid st e hl hr
    exact ih (bedStep st e) h.1 h.2

/-- C9: for every sequence of bed operations and confirmation events,
each of the two bed sides always holds exactly one of the three values
`up`, `down`, `stopped` — from construction (both `stopped`) onward. -/
theorem bed_status_wellformed_invariant (connected : Bool) (evs : List BedEvent) :
    validStatus (bedRun (bedInit connected) evs).leftStatus ∧
    validStatus (bedRun (bedInit connected) evs).rightStatus :=
  bedRun_preserves_valid evs (bedInit connected)
    (Or.inr (Or.inr rfl)) (Or.inr (Or.inr rfl))

/-! ## Tracker helper lemmas -/

/-- A tracker with a running camera, a connected controller, a three
step adjustment sequence and threshold 1, used as concrete witness
state. -/
def demoTracker : TrackerState :=
  { camera := some true
    arduino := some true
    faceDetectionThreshold := 1
    adjustmentSequence := [⟨"left_up", 1⟩, ⟨"stop", 1/2⟩, ⟨"up", 1⟩]
    isRunning := true
    currentSequenceIndex := 0
    noFaceCount := 0
    lastFaceDetected := true }

/-- The adjustment step, in the presence of a controller and a valid
cursor: it reads the entry at the cursor, runs its action followed by a
`bed_stop` call when the action is not `stop`, and advances the cursor
by one modulo the sequence length. -/
theorem adjustBedPosition_eq (st : TrackerState) (b : Bool) (step : AdjStep)
    (ha : st.arduino = some b)
    (hs : st.adjustmentSequence.get? st.currentSequenceIndex = some step) :
    adjustBedPosition st =
      some ({ st with currentSequenceIndex :=
                (st.currentSequenceIndex + 1) % st.adjustmentSequence.length },
            if step.action = "stop" then executeBedAction (some b) step.action
            else executeBedAction (some b) step.action ++ [DeviceCall.bedStop]) := by
  unfold adjustBedPosition
  rw [hs]
  by_cases hstop : step.action = "stop" <;> simp [hstop, ha]

/-- When an adjustment step succeeds, the cursor advanced by exactly one
modulo the sequence length, stays in range, and the sequence itself is
untouched. -/
theorem adjustBedPosition_cursor (st st2 : TrackerState) (calls : List DeviceCall)
    (h : adjustBedPosition st = some (st2, calls)) :
    st2.currentSequenceIndex = (st.currentSequenceIndex + 1) % st.adjustmentSequence.length ∧
    st2.currentSequenceIndex < st.adjustmentSequence.length ∧
    st2.adjustmentSequence = st.adjustmentSequence := by
  unfold adjustBedPosition at h
  cases hg : st.adjustmentSequence.get? st.currentSequenceIndex with
  | none => rw [hg] at h; exact absurd h (by simp)
  | some step =>
    rw [hg] at h
    have hidx : st.currentSequenceIndex < st.adjustmentSequence.length := by
      by_contra hle
      rw [List.get?_eq_none.mpr (Nat.le_of_not_lt hle)] at hg
      cases hg
    have hlen : 0 < st.adjustmentSequence.length :=
      lt_of_le_of_lt (Nat.zero_le _) hidx
    have hmod : (st.currentSequenceIndex + 1) % st.adjustmentSequence.length <
        st.adjustmentSequence.length := Nat.mod_lt _ hlen
    by_cases hstop : step.action = "stop"
    · simp only [hstop, ne_eq, not_true_eq_false, if_false, reduceIte,
        Option.some.injEq, Prod.mk.injEq] at h
      rw [← h.1]
      exact ⟨rfl, hmod, rfl⟩
    · simp only [ne_eq, hstop, not_false_eq_true, if_true, reduceIte] at h
      cases harr : st.arduino with
      | none => rw [harr] at h; cases h
      | some ab =>
        rw [harr] at h
        simp only [Option.some.injEq, Prod.mk.injEq] at h
        rw [← h.1]
        exact ⟨rfl, hmod, rfl⟩

/-- The threshold branch of the loop body, when triggered with a
controller and a valid cursor: the counter is reset to 0, the cursor
advances by one, and the emitted calls are those of the step that was
read. -/
theorem trackingStepAux_trigger (s : TrackerState) (b : Bool) (step : AdjStep)
    (ha : s.arduino = some b)
    (hs : s.adjustmentSequence.get? s.currentSequenceIndex = some step)
    (hthr : s.faceDetectionThreshold ≤ s.noFaceCount) :
    (trackingStepAux s).1.noFaceCount = 0 ∧
    (trackingStepAux s).1.currentSequenceIndex =
      (s.currentSequenceIndex + 1) % s.adjustmentSequence.length ∧
    (trackingStepAux s).2 =
      (if step.action = "stop" then executeBedAction (some b) step.action
       else executeBedAction (some b) step.action ++ [DeviceCall.bedStop]) := by
  have hadj := adjustBedPosition_eq s b step ha hs
  unfold trackingStepAux
  rw [if_pos hthr, hadj]
  exact ⟨rfl, rfl, rfl⟩

/-- Below the threshold the loop body does nothing beyond the counter
bump already applied. -/
theorem trackingStepAux_below (s : TrackerState)
    (h : s.noFaceCount < s.faceDetectionThreshold) :
    trackingStepAux s = (s, []) := by
  unfold trackingStepAux
  rw [if_neg (Nat.not_le.mpr h)]

/-- The threshold branch keeps the cursor in range. -/
theorem trackingStepAux_cursor_lt (s : TrackerState)
    (h : s.currentSequenceIndex < s.adjustmentSequence.length) :
    (trackingStepAux s).1.currentSequenceIndex <
      (trackingStepAux s).1.adjustmentSequence.length := by
  unfold trackingStepAux
  split
  · cases hadj : adjustBedPosition s with
    | none => simpa using h
    | some p =>
      cases p with
      | mk st2 calls =>
        have hc := adjustBedPosition_cursor s st2 calls hadj
        simpa [hc.2.2] using hc.2.1
  · exact h

/-- Each scan iteration keeps the cursor in range. -/
theorem trackingStep_cursor_lt (st : TrackerState) (f : Bool)
    (h : st.currentSequenceIndex < st.adjustmentSequence.length) :
    (trackingStep st f).1.currentSequenceIndex <
      (trackingStep st f).1.adjustmentSequence.length := by
  cases f with
  | true =>
    exact trackingStepAux_cursor_lt { st with noFaceCount := 0, lastFaceDetected := true } h
  | false =>
    exact trackingStepAux_cursor_lt
      { st with noFaceCount := st.noFaceCount + 1, lastFaceDetected := false } h

/-- The constructor always leaves a non-empty sequence (an empty or
absent argument is replaced by the default), so the initial cursor 0 is
in range. -/
theorem trackerInit_cursor_lt (cam ard : Option Bool) (thr : Nat) (seq : List AdjStep) :
    (trackerInit cam ard thr seq).currentSequenceIndex <
      (trackerInit cam ard thr seq).adjustmentSequence.length := by
  unfold trackerInit defaultAdjustmentSequence
  cases seq <;> simp

/-- The cursor stays in range along every scan run. -/
theorem trackerScanRun_cursor_lt (faces : List Bool) (st : TrackerState)
    (h : st.currentSequenceIndex < st.adjustmentSequence.length) :
    (trackerScanRun st faces).currentSequenceIndex <
      (trackerScanRun st faces).adjustmentSequence.length := by
  induction faces generalizing st with
  | nil => exact h
  | cons f t ih => exact ih (trackingStep st f).1 (trackingStep_cursor_lt st f h)

/-! ## Claim C6 -/

/-- C6: an adjusting step reads the entry at the current sequence
cursor and invokes the matching device method, and when the action is
not `stop` it afterwards explicitly calls bed-stop, so the calls of a
scripted step with a non-stop action always end with a bed-stop call;
and whenever the no-face count reaches the detection threshold on a
scan, exactly one adjusting step is triggered (the cursor advances by
exactly one) and the no-face count is reset to 0, while below the
threshold no step is triggered. -/
theorem adjust_step_bedStop_and_threshold (st : TrackerState) (b : Bool) (step : AdjStep)
    (ha : st.arduino = some b)
    (hs : st.adjustmentSequence.get? st.currentSequenceIndex = some step) :
    (adjustBedPosition st =
      some ({ st with currentSequenceIndex :=
                (st.currentSequenceIndex + 1) % st.adjustmentSequence.length },
            if step.action = "stop" then executeBedAction (some b) step.action
            else executeBedAction (some b) step.action ++ [DeviceCall.bedStop])) ∧
    (step.action ≠ "stop" →
      (executeBedAction (some b) step.action ++ [DeviceCall.bedStop]).getLast? =
        some DeviceCall.bedStop) ∧
    (st.faceDetectionThreshold ≤ st.noFaceCount + 1 →
      (trackingStep st false).1.noFaceCount = 0 ∧
      (trackingStep st false).1.currentSequenceIndex =
        (st.currentSequenceIndex + 1) % st.adjustmentSequence.length ∧
      (trackingStep st false).2 =
        (if step.action = "stop" then executeBedAction (some b) step.action
         else executeBedAction (some b) step.action ++ [DeviceCall.bedStop])) ∧
    (st.noFaceCount + 1 < st.faceDetectionThreshold →
      (trackingStep st false).1.noFaceCount = st.noFaceCount + 1 ∧
      (trackingStep st false).2 = []) := by
  refine ⟨adjustBedPosition_eq st b step ha hs, ?_, ?_, ?_⟩
  · intro _
    exact List.getLast?_concat _
  · intro hthr
    exact trackingStepAux_trigger
      { st with noFaceCount := st.noFaceCount + 1, lastFaceDetected := false } b step ha hs hthr
  · intro hlt
    have h2 := trackingStepAux_below
      { st with noFaceCount := st.noFaceCount + 1, lastFaceDetected := false } hlt
    have h3 : trackingStep st false =
        ({ st with noFaceCount := st.noFaceCount + 1, lastFaceDetected := false }, []) := h2
    rw [h3]
    exact ⟨rfl, rfl⟩

/-- Witness for `adjust_step_bedStop_and_threshold` at `demoTracker`,
whose first step is the non-stop action `left_up` and whose threshold 1
is reached by a single no-face scan. -/
theorem adjust_step_bedStop_and_threshold_witness :
    (trackingStep demoTracker false).1.noFaceCount = 0 ∧
    (trackingStep demoTracker false).2 =
      [DeviceCall.leftUp, DeviceCall.bedStop] ∧
    (executeBedAction (some true) "left_up" ++ [DeviceCall.bedStop]).getLast? =
      some DeviceCall.bedStop := by
  have h := adjust_step_bedStop_and_threshold demoTracker true ⟨"left_up", 1⟩ rfl rfl
  have ht := h.2.2.1 (by decide)
  exact ⟨ht.1, by rw [ht.2.2]; rfl, h.2.1 (by decide)⟩

/-! ## Claim C7 -/

/-- C7: the sequence cursor advances by exactly one modulo the sequence
length per triggered adjustment — on the length-3 sequence of
`demoTracker`, four adjustments take the cursor 0 to 1 to 2 to 0 and
back to 1 — and along every scan run from construction the cursor is
an in-range index of the (never empty) adjustment sequence. -/
theorem sequence_cursor_wraparound (st st2 : TrackerState) (calls : List DeviceCall)
    (hadj : adjustBedPosition st = some (st2, calls))
    (cam ard : Option Bool) (thr : Nat) (seq : List AdjStep) (faces : List Bool) :
    (st2.currentSequenceIndex =
       (st.currentSequenceIndex + 1) % st.adjustmentSequence.length ∧
     st2.currentSequenceIndex < st.adjustmentSequence.length) ∧
    (demoTracker.currentSequenceIndex = 0 ∧
     (adjustAndContinue demoTracker).currentSequenceIndex = 1 ∧
     (adjustAndContinue (adjustAndContinue demoTracker)).currentSequenceIndex = 2 ∧
     (adjustAndContinue (adjustAndContinue (adjustAndContinue demoTracker))).currentSequenceIndex = 0 ∧
     (adjustAndContinue (adjustAndContinue (adjustAndContinue (adjustAndContinue demoTracker)))).currentSequenceIndex = 1) ∧
    (trackerScanRun (trackerInit cam ard thr seq) faces).currentSequenceIndex <
      (trackerScanRun (trackerInit cam ard thr seq) faces).adjustmentSequence.length := by
  have hc := adjustBedPosition_cursor st st2 calls hadj
  refine ⟨⟨hc.1, hc.2.1⟩, ⟨rfl, rfl, rfl, rfl, rfl⟩, ?_⟩
  exact trackerScanRun_cursor_lt faces (trackerInit cam ard thr seq)
    (trackerInit_cursor_lt cam ard thr seq)

/-- Witness for `sequence_cursor_wraparound` at a concrete successful
adjustment of `demoTracker`. -/
theorem sequence_cursor_wraparound_witness :
    (adjustAndContinue demoTracker).currentSequenceIndex =
      (demoTracker.currentSequenceIndex + 1) % demoTracker.adjustmentSequence.length := by
  have h := sequence_cursor_wraparound demoTracker
    { demoTracker with currentSequenceIndex := 1 }
    [DeviceCall.leftUp, DeviceCall.bedStop] rfl
    (some true) (some true) 1 [] []
  exact h.1.1

/-! ## Claim C8 -/

/-- C8: `start()` returns false (raising nothing) when the tracker is
already running, when the camera is absent or not running, or when the
Arduino controller is absent or not connected, and in those cases
leaves the state unchanged; it returns true and sets the tracker
running exactly when the tracker is not yet running and both
collaborators are present and live. -/
theorem tracker_start_preconditions (st : TrackerState) :
    ((trackerStart st).1 = true ↔
      st.isRunning = false ∧ st.camera = some true ∧ st.arduino = some true) ∧
    ((trackerStart st).1 = true → (trackerStart st).2.isRunning = true) ∧
    ((trackerStart st).1 = false → (trackerStart st).2 = st) := by
  cases hr : st.isRunning with
  | true => simp [trackerStart, hr]
  | false =>
    cases hcam : st.camera with
    | none => simp [trackerStart, hr, hcam]
    | some cb =>
      cases cb with
      | false => simp [trackerStart, hr, hcam]
      | true =>
        cases har : st.arduino with
        | none => simp [trackerStart, hr, hcam, har]
        | some ab =>
          cases ab with
          | false => simp [trackerStart, hr, hcam, har]
          | true => simp [trackerStart, hr, hcam, har]

/-- Witness for `tracker_start_preconditions`: a freshly constructed
tracker with both collaborators live starts successfully, and one with
a missing camera refuses. -/
theorem tracker_start_witness :
    (trackerStart (trackerInit (some true) (some true) 3 [])).1 = true ∧
    (trackerStart (trackerInit none (some true) 3 [])).1 = false ∧
    trackerStart (trackerInit none (some true) 3 []) =
      (false, trackerInit none (some true) 3 []) := by
  refine ⟨?_, ?_, ?_⟩
  · exact (tracker_start_preconditions (trackerInit (some true) (some true) 3 [])).1.mpr
      ⟨rfl, rfl, rfl⟩
  · rfl
  · have h := (tracker_start_preconditions (trackerInit none (some true) 3 [])).2.2 rfl
    exact Prod.ext rfl h
